import Mathlib

/-!
Shallow embedding of rtfraptor's `engine.py` (the instrumentation and
correlation engine): the hook handlers of `CustomEventHandler`, the hook
registration logic, and the event loop of `office_debugger`, together with
theorems settling the specification claims about them.

External collaborators (winappdbg's debug adapter, `hashlib.sha256`,
oletools' `KNOWN_CLSIDS`) are modelled at their interfaces; the target
process memory is a partial map from addresses to bytes, read while the
target is halted.
-/

namespace Rtfraptor

/-- Severity levels of the Python logging calls appearing in `engine.py`. -/
inductive LogLevel
  | debug
  | warning
  | error
deriving Repr, DecidableEq

/-- Numeric rank of a log level, following the Python logging module
(DEBUG = 10, WARNING = 30, ERROR = 40); a larger rank is a higher severity. -/
def LogLevel.rank : LogLevel → Nat
  | .debug => 10
  | .warning => 30
  | .error => 40

/-- Observable side effects of the engine: files written by the stream
extractor, log records (level, format string, stringified arguments), hook
installations via `debug.hook_function`, and the control calls
`debug.dispatch()`, `debug.cont()` and `debug.stop()` of `office_debugger`. -/
inductive Action
  | writeFile (name : String) (content : List Nat)
  | log (level : LogLevel) (fmt : String) (args : List String)
  | installHook (func : String) (address : Nat) (argCount : Nat)
  | dispatchCall
  | contCall
  | stopCall
deriving Repr, DecidableEq

/-- The target process address space as seen through the debug adapter: a
byte value at each readable address, nothing at unreadable ones. -/
abbrev Mem := Nat → Option Nat

/-- `process.read(addr, n)`: reads exactly `n` bytes, failing (raising, in
the Python source) when any byte in the range is unreadable. -/
def readMem (m : Mem) (addr : Nat) : Nat → Option (List Nat)
  | 0 => some []
  | n + 1 =>
    match m addr, readMem m (addr + 1) n with
    | some b, some rest => some (b :: rest)
    | _, _ => none

/-- Little-endian value of a byte list. -/
def leVal (bs : List Nat) : Nat := bs.foldr (fun b acc => b + 256 * acc) 0

/-- `process.peek_pointer`: reads a 32-bit pointer (the source assumes a
32-bit target, see the TODO at `engine.py` line 74) and returns 0 when the
address is unreadable; winappdbg peeks never raise. -/
def peek_pointer (m : Mem) (addr : Nat) : Nat :=
  match readMem m addr 4 with
  | some bs => leVal bs
  | none => 0

/-- `process.peek_dword`: reads a 4-byte little-endian value, 0 on failure. -/
def peek_dword (m : Mem) (addr : Nat) : Nat :=
  match readMem m addr 4 with
  | some bs => leVal bs
  | none => 0

/-- One entry of `CustomEventHandler.objects`: the `info` dict built by
`_hook_data_conversion` and completed by `_hook_guid_conversion`. -/
structure TrackedObject where
  size : Nat
  sha256 : String
  class_id : Option String
  description : Option String
deriving Repr, DecidableEq

/-- Mutable state of `CustomEventHandler`: the `_last_pstg` correlation
slot and the `objects` dict keyed by the destination storage handle. -/
structure HState where
  last_pstg : Option Nat
  objects : List (Nat × TrackedObject)
deriving Repr, DecidableEq

/-- Initial handler state: `_last_pstg = None` and an empty objects dict. -/
def initialState : HState := { last_pstg := none, objects := [] }

/-- Python dict lookup on the objects association list; `none` models a
`KeyError` on indexing. -/
def lookupObj : List (Nat × TrackedObject) → Nat → Option TrackedObject
  | [], _ => none
  | (k, v) :: rest, key => if k = key then some v else lookupObj rest key

/-- Python dict assignment: overwrite an existing binding or append. -/
def insertObj : List (Nat × TrackedObject) → Nat → TrackedObject → List (Nat × TrackedObject)
  | [], key, v => [(key, v)]
  | (k, w) :: rest, key, v =>
    if k = key then (key, v) :: rest else (k, w) :: insertObj rest key v

/-- Dict lookup in the CLSID classification table. -/
def lookupAssoc : List (String × String) → String → Option String
  | [], _ => none
  | (k, v) :: rest, key => if k = key then some v else lookupAssoc rest key

/-- External collaborators of the engine. `sha256hex` models
`hashlib.sha256(data).hexdigest()`; `bytesToClsid` models
`rtfraptor.utils.bytes_to_clsid` (a module of this repository whose source
is not part of the engine file; the claims treat the resulting identifier
opaquely, so the development quantifies over it); `knownClsids` models the
static oletools `KNOWN_CLSIDS` mapping. -/
structure Env where
  sha256hex : List Nat → String
  bytesToClsid : List Nat → String
  knownClsids : List (String × String)

/-- Python truthiness of the `_last_pstg` slot: `None` and 0 are falsy. -/
def truthy : Option Nat → Bool
  | none => false
  | some n => n != 0

/-- `_hook_load` (`engine.py` lines 34-43): saves the `pStg` argument in
the correlation slot, overwriting any previous value; no other effect. -/
def hook_load (st : HState) (pstg : Nat) : HState × List Action :=
  ({ st with last_pstg := some pstg }, [])

/-- `_hook_guid_conversion` (`engine.py` lines 45-65): reads the 16-byte
class identifier, and when an object load is pending, records the
identifier on the tracked object, classifies it against the static table,
logs the verdict and clears the slot. `Except.error` models a Python
exception escaping the hook (a failed `process.read`, or the `KeyError`
of indexing `objects` with an absent key). -/
def hook_guid_conversion (env : Env) (m : Mem) (st : HState) (clsid_old : Nat) :
    Except String (HState × List Action) :=
  match readMem m clsid_old 16 with
  | none => Except.error "ReadError"
  | some clsid_bytes =>
    if truthy st.last_pstg then
      match lookupObj st.objects (st.last_pstg.getD 0) with
      | none => Except.error "KeyError"
      | some info =>
        match lookupAssoc env.knownClsids (env.bytesToClsid clsid_bytes) with
        | some desc =>
          Except.ok
            ({ last_pstg := none,
               objects := (insertObj st.objects (st.last_pstg.getD 0)
                 { info with
                   class_id := some (env.bytesToClsid clsid_bytes),
                   description := some desc }) },
             [Action.log .warning "Suspicious OLE object loaded, class id %s (%s)"
                [env.bytesToClsid clsid_bytes, desc],
              Action.log .warning "Object size is %d, SHA256 is %s"
                [toString info.size, info.sha256]])
        | none =>
          Except.ok
            ({ last_pstg := none,
               objects := (insertObj st.objects (st.last_pstg.getD 0)
                 { info with
                   class_id := some (env.bytesToClsid clsid_bytes),
                   description := some "Unknown (not blacklisted)" }) },
             [Action.log .warning "Object found but not on blacklist %s"
                [env.bytesToClsid clsid_bytes]])
    else
      Except.ok (st, [])

/-- `_hook_data_conversion` (`engine.py` lines 67-90): follows the pointer
at offset 8 of the `lpOleStream` structure, dereferences it once more to
get the data buffer address, reads the 4-byte length field at offset 12,
reads exactly that many bytes, hashes them, writes them to a file named by
the hex digest (unconditionally - no flag is consulted), records the
tracked object under the `pStg` handle and emits a debug log line.
`Except.error` models the exception raised by a failing `process.read`. -/
def hook_data_conversion (env : Env) (m : Mem) (st : HState)
    (lpolestream pstg : Nat) : Except String (HState × List Action) :=
  match readMem m (peek_pointer m (peek_pointer m (lpolestream + 8)))
        (peek_dword m (lpolestream + 12)) with
  | none => Except.error "ReadError"
  | some data =>
    Except.ok
      ({ st with objects := (insertObj st.objects pstg
           { size := peek_dword m (lpolestream + 12)
             sha256 := env.sha256hex data
             class_id := none
             description := none }) },
       [Action.writeFile (env.sha256hex data) data,
        Action.log .debug "Dumping data from 0x%08x, destination 0x%08x, length %d, hash %s"
          [toString (peek_pointer m (peek_pointer m (lpolestream + 8))), toString pstg,
           toString (peek_dword m (lpolestream + 12)), env.sha256hex data]])

/-- Options of one declared hook: argument count and handler name. -/
structure HookOpts where
  args : Nat
  hook : String
deriving Repr, DecidableEq

/-- The ole32.dll entries of `CustomEventHandler._hooks`. -/
def ole32Hooks : List (String × HookOpts) :=
  [("OleLoad", { args := 4, hook := "_hook_load" }),
   ("OleConvertOLESTREAMToIStorage", { args := 3, hook := "_hook_data_conversion" }),
   ("OleGetAutoConvert", { args := 2, hook := "_hook_guid_conversion" })]

/-- `CustomEventHandler._hooks`: the module-to-hooks table. -/
def hooks_table : List (String × List (String × HookOpts)) :=
  [("ole32.dll", ole32Hooks)]

/-- `_apply_hooks` (`engine.py` lines 92-110). `module.resolve` is
modelled as a function returning the resolved address, with 0 standing for
the falsy not-found result. For each function in declaration order a debug
line is logged and the hook installed; on the first unresolved function an
error is logged and the loop returns `False` at once, so the remaining
declared hooks of the module are not visited. -/
def apply_hooks (resolve : String → Nat) : List (String × HookOpts) → List Action × Bool
  | [] => ([], true)
  | (func, opts) :: rest =>
    if resolve func ≠ 0 then
      (Action.log .debug "Address of %s is 0x%08x" [func, toString (resolve func)]
         :: Action.installHook func (resolve func) opts.args :: (apply_hooks resolve rest).1,
       (apply_hooks resolve rest).2)
    else
      ([Action.log .error "Could not find function %s to hook" [func]], false)

/-- `load_dll` (`engine.py` lines 112-124). `module.match_name` is
modelled as name equality; the `Bool` result of `_apply_hooks` is
discarded (the TODO at line 124 notes this), so the callback always
returns normally whatever resolution does. -/
def load_dll (resolve : String → Nat) (moduleName : String) : List Action :=
  hooks_table.foldl
    (fun acc p =>
      if p.1 = moduleName then
        acc ++ Action.log .debug "Process loaded %s, hooks exist for this module" [moduleName]
            :: (apply_hooks resolve p.2).1
      else acc) []

/-- A debug event dispatched to `CustomEventHandler`. -/
inductive HookEvent
  | loadDll (resolve : String → Nat) (moduleName : String)
  | oleLoad (pstg : Nat)
  | guidConversion (clsid_old : Nat)
  | dataConversion (lpolestream : Nat) (pstg : Nat)

/-- Dispatching one event to the handler while the target is halted with
memory `m`; `Except.error` models a Python exception escaping the hook. -/
def dispatch (env : Env) (m : Mem) (st : HState) :
    HookEvent → Except String (HState × List Action)
  | .loadDll resolve name => Except.ok (st, load_dll resolve name)
  | .oleLoad pstg => Except.ok (hook_load st pstg)
  | .guidConversion a => hook_guid_conversion env m st a
  | .dataConversion lp pstg => hook_data_conversion env m st lp pstg

/-- Outcome of `debug.wait(1000)` in one loop iteration: an event (with
the halted target memory at that instant), a timeout `WindowsError`
(absorbed by the loop's `continue`), or another `WindowsError` that the
loop re-raises. -/
inductive WaitResult
  | ev (m : Mem) (e : HookEvent)
  | winTimeout
  | winError (code : Nat)

/-- Environment observed at the top of one iteration of the event loop:
`debug.get_debugee_count()`, `time()`, and what `debug.wait(1000)`
yields. -/
structure LoopStep where
  debugees : Nat
  now : Nat
  wait : WaitResult

/-- The while-loop of `office_debugger` (`engine.py` lines 148-163) over a
finite schedule of iteration environments (an exhausted schedule stands
for the debuggee having exited, which ends the loop the same way as the
condition turning false). Returns the final handler state, the trace of
control and handler actions, and the exception (if any) escaping the
loop. The try/finally at lines 160-163 makes `debug.cont()` run even when
`debug.dispatch()` raises, after which the exception keeps propagating. -/
def eventLoop (env : Env) (maxTime : Nat) (st : HState) :
    List LoopStep → HState × List Action × Option String
  | [] => (st, [], none)
  | s :: rest =>
    if 0 < s.debugees ∧ s.now < maxTime then
      match s.wait with
      | .winTimeout => eventLoop env maxTime st rest
      | .winError code => (st, [], some ("WindowsError " ++ toString code))
      | .ev m e =>
        match dispatch env m st e with
        | .ok r1 =>
          ((eventLoop env maxTime r1.1 rest).1,
           Action.dispatchCall :: r1.2 ++ Action.contCall :: (eventLoop env maxTime r1.1 rest).2.1,
           (eventLoop env maxTime r1.1 rest).2.2)
        | .error msg =>
          (st, [Action.dispatchCall, Action.contCall], some msg)
    else (st, [], none)

/-- Result of a run of `office_debugger`: the accumulated tracked objects,
the action trace, and the exception escaping the run, if any. -/
structure RunResult where
  finalState : HState
  trace : List Action
  error : Option String
deriving Repr

/-- `office_debugger` (`engine.py` lines 127-165) for a run whose launch
succeeds. The `save_objs` parameter is accepted but never read by the
source. The deadline is `time() + timeout` computed at start. The final
`debug.stop()` of the outer try/finally (with `bKillOnExit` set)
terminates the target and always runs, whether the loop exits normally or
an exception is propagating. -/
def office_debugger (env : Env) (timeout : Nat) (save_objs : Bool)
    (startTime : Nat) (steps : List LoopStep) : RunResult :=
  { finalState := (eventLoop env (startTime + timeout) initialState steps).1,
    trace := (eventLoop env (startTime + timeout) initialState steps).2.1 ++ [Action.stopCall],
    error := (eventLoop env (startTime + timeout) initialState steps).2.2 }

/-- Number of storage handles held by the correlation slot. -/
def pendingCount : Option Nat → Nat
  | none => 0
  | some _ => 1

/-- The scoped-resource discipline of the dispatch loop: every
`dispatchCall` in the trace is followed by a `contCall`, with only handler
actions (no control calls) in between, before anything else happens. -/
inductive ResumeDiscipline : List Action → Prop
  | nil : ResumeDiscipline []
  | skip (a : Action) (rest : List Action) (h : a ≠ Action.dispatchCall) :
      ResumeDiscipline rest → ResumeDiscipline (a :: rest)
  | seg (acts rest : List Action)
      (h : ∀ a ∈ acts, a ≠ Action.dispatchCall ∧ a ≠ Action.contCall) :
      ResumeDiscipline rest →
      ResumeDiscipline (Action.dispatchCall :: acts ++ Action.contCall :: rest)

/-- The actions `_apply_hooks` emits for a run of successfully resolved
hooks, in declaration order: a debug log line and the installation. -/
def installActions (resolve : String → Nat) : List (String × HookOpts) → List Action
  | [] => []
  | (func, opts) :: rest =>
    Action.log .debug "Address of %s is 0x%08x" [func, toString (resolve func)]
      :: Action.installHook func (resolve func) opts.args :: installActions resolve rest

/-- Action lists free of the loop's control calls. -/
def nonControl (acts : List Action) : Prop :=
  ∀ a ∈ acts, a ≠ Action.dispatchCall ∧ a ≠ Action.contCall

/-! ### Helper lemmas -/

theorem readMem_length {m : Mem} {n : Nat} : ∀ {addr : Nat} {l : List Nat},
    readMem m addr n = some l → l.length = n := by
  induction n with
  | zero =>
    intro addr l h
    simp only [readMem, Option.some_inj] at h
    simp [← h]
  | succ k ih =>
    intro addr l h
    simp only [readMem] at h
    cases hb : m addr <;> rw [hb] at h
    · simp at h
    · cases hr : readMem m (addr + 1) k <;> rw [hr] at h
      · simp at h
      · simp only [Option.some_inj] at h
        rw [← h]
        simp [ih hr]

theorem lookupObj_insertObj_self (l : List (Nat × TrackedObject)) (k : Nat)
    (v : TrackedObject) : lookupObj (insertObj l k v) k = some v := by
  induction l with
  | nil => simp [insertObj, lookupObj]
  | cons p rest ih =>
    obtain ⟨k1, w⟩ := p
    by_cases hk : k1 = k
    · simp [insertObj, hk, lookupObj]
    · simp [insertObj, hk, lookupObj, ih]

theorem apply_hooks_nonControl (resolve : String → Nat) :
    ∀ hs : List (String × HookOpts), nonControl (apply_hooks resolve hs).1 := by
  intro hs
  induction hs with
  | nil => intro a ha; simp [apply_hooks] at ha
  | cons p rest ih =>
    obtain ⟨func, opts⟩ := p
    intro a ha
    by_cases h0 : resolve func ≠ 0
    · simp only [apply_hooks, if_pos h0, List.mem_cons] at ha
      rcases ha with rfl | rfl | ha
      · exact ⟨by simp, by simp⟩
      · exact ⟨by simp, by simp⟩
      · exact ih a ha
    · simp only [apply_hooks, if_neg h0, List.mem_cons] at ha
      rcases ha with rfl | ha
      · exact ⟨by simp, by simp⟩
      · simp at ha

theorem load_dll_nonControl (resolve : String → Nat) (name : String) :
    nonControl (load_dll resolve name) := by
  unfold load_dll hooks_table
  simp only [List.foldl]
  split
  · intro a ha
    simp only [List.nil_append, List.mem_cons] at ha
    rcases ha with rfl | ha
    · exact ⟨by simp, by simp⟩
    · exact apply_hooks_nonControl resolve ole32Hooks a ha
  · intro a ha; simp at ha

theorem hook_guid_conversion_nonControl (env : Env) (m : Mem) (st : HState)
    (a : Nat) (st1 : HState) (acts : List Action)
    (h : hook_guid_conversion env m st a = Except.ok (st1, acts)) : nonControl acts := by
  unfold hook_guid_conversion at h
  split at h
  · exact absurd h (by simp)
  · split at h
    · split at h
      · exact absurd h (by simp)
      · split at h <;>
          · simp only [Except.ok.injEq, Prod.mk.injEq] at h
            rw [← h.2]
            intro x hx
            simp only [List.mem_cons, List.not_mem_nil, or_false] at hx
            rcases hx with rfl | rfl <;> exact ⟨by simp, by simp⟩
    · simp only [Except.ok.injEq, Prod.mk.injEq] at h
      rw [← h.2]
      intro x hx
      simp at hx

theorem hook_data_conversion_nonControl (env : Env) (m : Mem) (st : HState)
    (lp pstg : Nat) (st1 : HState) (acts : List Action)
    (h : hook_data_conversion env m st lp pstg = Except.ok (st1, acts)) :
    nonControl acts := by
  unfold hook_data_conversion at h
  cases hr : readMem m (peek_pointer m (peek_pointer m (lp + 8))) (peek_dword m (lp + 12)) <;>
    rw [hr] at h
  · exact absurd h (by simp)
  · simp only [Except.ok.injEq, Prod.mk.injEq] at h
    rw [← h.2]
    intro x hx
    simp only [List.mem_cons, List.not_mem_nil] at hx
    rcases hx with rfl | rfl | hx
    · exact ⟨by simp, by simp⟩
    · exact ⟨by simp, by simp⟩
    · simp at hx

theorem dispatch_nonControl (env : Env) (m : Mem) (st : HState) (e : HookEvent)
    (st1 : HState) (acts : List Action)
    (h : dispatch env m st e = Except.ok (st1, acts)) : nonControl acts := by
  cases e with
  | loadDll resolve name =>
    simp only [dispatch, Except.ok.injEq, Prod.mk.injEq] at h
    rw [← h.2]
    exact load_dll_nonControl resolve name
  | oleLoad pstg =>
    simp only [dispatch, hook_load, Except.ok.injEq, Prod.mk.injEq] at h
    rw [← h.2]
    intro x hx; simp at hx
  | guidConversion a => exact hook_guid_conversion_nonControl env m st a st1 acts h
  | dataConversion lp pstg => exact hook_data_conversion_nonControl env m st lp pstg st1 acts h

/-! ### Concrete data for witnesses and counterexamples -/

/-- Concrete target memory for the 42-byte extraction scenario of the
spec: the stream structure at address 0 holds the pointer 16 at offset 8
and the length 42 at offset 12; address 16 holds the buffer pointer 100;
the buffer at 100 holds the bytes 0..41. -/
def memW : Mem := fun a =>
  if a = 8 then some 16
  else if a = 12 then some 42
  else if a = 16 then some 100
  else if (a = 9 ∨ a = 10 ∨ a = 11) ∨ (a = 13 ∨ a = 14 ∨ a = 15) ∨ (a = 17 ∨ a = 18 ∨ a = 19)
    then some 0
  else if 100 ≤ a ∧ a < 142 then some (a - 100)
  else none

/-- The 42 bytes of the scenario buffer. -/
def dataW : List Nat := List.range 42

/-- Concrete environment with an empty classification table and a digest
standing in for SHA-256. -/
def envW : Env :=
  { sha256hex := fun data => toString data.length
    bytesToClsid := fun _ => "X"
    knownClsids := [] }

/-- Concrete environment whose classification table knows the identifier
produced by its converter. -/
def envK : Env :=
  { sha256hex := fun data => toString data.length
    bytesToClsid := fun _ => "CLSID-A"
    knownClsids := [("CLSID-A", "Bad")] }

/-- Memory with 16 readable bytes of value 1 at address 0. -/
def memR : Mem := fun a => if a < 16 then some 1 else none

/-- The 16 identifier bytes read from memR. -/
def bsW : List Nat := List.replicate 16 1

/-- A tracked object as recorded by a previous data-conversion call. -/
def objW : TrackedObject := { size := 42, sha256 := "d", class_id := none, description := none }

/-- Handler state with a pending handle 5 whose object is tracked. -/
def stW5 : HState := { last_pstg := some 5, objects := [(5, objW)] }

/-- Handler state with a pending handle 5 but no tracked object. -/
def stE : HState := { last_pstg := some 5, objects := [] }

/-- Resolver for which only the first declared ole32 function is missing. -/
def resolveCE : String → Nat := fun f => if f = "OleLoad" then 0 else 1

/-- Resolver missing exactly the function named Missing. -/
def resolveW2 : String → Nat := fun f => if f = "Missing" then 0 else 5

/-- A one-hook prefix that resolves under resolveW2. -/
def preW2 : List (String × HookOpts) := [("Present", { args := 2, hook := "_hook_load" })]

/-! ### Claim theorems -/

/-- C1: for every data-conversion call whose bounded read succeeds, the
stream extractor reads the pointer at offset 8 of the stream structure,
dereferences it once more to get the data-buffer address, reads the
4-byte length field at offset 12, reads exactly that many bytes, computes
the digest over exactly those bytes, writes a file named by that digest
containing exactly those bytes, and creates or overwrites the tracked
object keyed by the destination storage handle with that length and
digest. -/
theorem C1_stream_extraction (env : Env) (m : Mem) (st : HState)
    (lpolestream pstg : Nat) (data : List Nat)
    (h : readMem m (peek_pointer m (peek_pointer m (lpolestream + 8)))
           (peek_dword m (lpolestream + 12)) = some data) :
    hook_data_conversion env m st lpolestream pstg =
      Except.ok
        ({ st with objects := (insertObj st.objects pstg
             { size := peek_dword m (lpolestream + 12)
               sha256 := env.sha256hex data
               class_id := none
               description := none }) },
         [Action.writeFile (env.sha256hex data) data,
          Action.log .debug "Dumping data from 0x%08x, destination 0x%08x, length %d, hash %s"
            [toString (peek_pointer m (peek_pointer m (lpolestream + 8))), toString pstg,
             toString (peek_dword m (lpolestream + 12)), env.sha256hex data]])
    ∧ data.length = peek_dword m (lpolestream + 12)
    ∧ lookupObj (insertObj st.objects pstg
        { size := peek_dword m (lpolestream + 12)
          sha256 := env.sha256hex data
          class_id := none
          description := none }) pstg =
      some { size := peek_dword m (lpolestream + 12)
             sha256 := env.sha256hex data
             class_id := none
             description := none } := by
  refine ⟨?_, readMem_length h, lookupObj_insertObj_self _ _ _⟩
  unfold hook_data_conversion
  rw [h]

/-- Witness for C1: the spec's 42-byte scenario, evaluated on memW. -/
theorem C1_stream_extraction_witness :
    readMem memW (peek_pointer memW (peek_pointer memW (0 + 8))) (peek_dword memW (0 + 12)) =
      some dataW
    ∧ dataW.length = peek_dword memW (0 + 12) :=
  ⟨by decide, (C1_stream_extraction envW memW initialState 0 7 dataW (by decide)).2.1⟩

/-- C2 counterexample: with OleLoad (the first declared ole32 hook)
unresolved, the claim demands that the other two declared hooks still be
installed; the source instead stops at the first failure, so the loop
result holds only the error record and installs nothing, although
OleGetAutoConvert resolves to a valid address. -/
theorem C2_counterexample :
    resolveCE "OleGetAutoConvert" = 1
    ∧ apply_hooks resolveCE ole32Hooks =
        ([Action.log .error "Could not find function %s to hook" ["OleLoad"]], false)
    ∧ Action.installHook "OleGetAutoConvert" 1 2 ∉ (apply_hooks resolveCE ole32Hooks).1 := by
  decide

/-- C2 (amended): when a declared hook fails to resolve, the registry
logs an error naming that function; the hooks declared before it (in
iteration order) are installed, while the failing hook and every hook
after it are not, leaving the module partially instrumented; the load_dll
callback still returns normally (its result is discarded), so the session
continues rather than aborting. -/
theorem C2_partial_instrumentation (resolve : String → Nat)
    (pre post : List (String × HookOpts)) (func : String) (opts : HookOpts)
    (hpre : ∀ p ∈ pre, resolve p.1 ≠ 0) (hfail : resolve func = 0) :
    apply_hooks resolve (pre ++ (func, opts) :: post) =
      (installActions resolve pre ++
        [Action.log .error "Could not find function %s to hook" [func]], false)
    ∧ ∀ (env : Env) (m : Mem) (st : HState) (name : String),
        dispatch env m st (HookEvent.loadDll resolve name) =
          Except.ok (st, load_dll resolve name) := by
  constructor
  · revert hpre
    induction pre with
    | nil =>
      intro _
      simp [apply_hooks, hfail, installActions]
    | cons p rest ih =>
      intro hpre
      obtain ⟨pf, po⟩ := p
      have h1 : resolve pf ≠ 0 := hpre (pf, po) (List.mem_cons_self _ _)
      simp only [List.cons_append, apply_hooks, if_pos h1, installActions, List.append_eq]
      rw [ih (fun q hq => hpre q (List.mem_cons_of_mem _ hq))]
  · intro env m st name
    rfl

/-- Witness for C2 (amended): one resolvable hook before one missing
hook. -/
theorem C2_partial_instrumentation_witness :
    (∀ p ∈ preW2, resolveW2 p.1 ≠ 0)
    ∧ resolveW2 "Missing" = 0
    ∧ apply_hooks resolveW2 (preW2 ++ ("Missing", { args := 1, hook := "_hook_load" }) :: []) =
        (installActions resolveW2 preW2 ++
          [Action.log .error "Could not find function %s to hook" ["Missing"]], false) :=
  ⟨by decide, by decide,
   (C2_partial_instrumentation resolveW2 preW2 [] "Missing" { args := 1, hook := "_hook_load" }
      (by decide) (by decide)).1⟩

/-- Schedule with one successful data-conversion event on memW. -/
def stepsW3 : List LoopStep :=
  [{ debugees := 1, now := 0, wait := WaitResult.ev memW (HookEvent.dataConversion 0 7) }]

/-- C3 (code bug): the `save_objs` parameter of office_debugger is
accepted but never read by the source, so the run - and in particular the
file written by the stream extractor - is identical with the flag off and
on: with `save_objs = false` the extracted object is still persisted to
disk, contradicting the flag's documented role. -/
theorem C3_save_objs_ignored :
    office_debugger envW 10 false 0 stepsW3 = office_debugger envW 10 true 0 stepsW3
    ∧ Action.writeFile (envW.sha256hex dataW) dataW ∈
        (office_debugger envW 10 false 0 stepsW3).trace := by
  refine ⟨rfl, ?_⟩
  decide

/-- Memory like memW but whose stream structure declares length 5 and
points at an unreadable buffer at address 200. -/
def memW4 : Mem := fun a =>
  if a = 8 then some 16
  else if a = 12 then some 5
  else if a = 16 then some 200
  else if (a = 9 ∨ a = 10 ∨ a = 11) ∨ (a = 13 ∨ a = 14 ∨ a = 15) ∨ (a = 17 ∨ a = 18 ∨ a = 19)
    then some 0
  else none

/-- Schedule with a failing data-conversion event followed by another
event that would be dispatched if analysis continued. -/
def stepsW4 : List LoopStep :=
  [{ debugees := 1, now := 0, wait := WaitResult.ev memW4 (HookEvent.dataConversion 0 7) },
   { debugees := 1, now := 1, wait := WaitResult.ev memW4 (HookEvent.oleLoad 9) }]

/-- C4 counterexample: on a failed remote read the handler raises (no
file, no tracked object), but contrary to the claim the exception
propagates out of the handler and out of the loop: the trace shows one
dispatch and one resume followed by stop, the second scheduled event is
never dispatched, and the run ends with the ReadError escaping. -/
theorem C4_counterexample :
    hook_data_conversion envW memW4 initialState 0 7 = Except.error "ReadError"
    ∧ (office_debugger envW 10 true 0 stepsW4).error = some "ReadError"
    ∧ (office_debugger envW 10 true 0 stepsW4).trace =
        [Action.dispatchCall, Action.contCall, Action.stopCall]
    ∧ (office_debugger envW 10 true 0 stepsW4).finalState = initialState :=
  ⟨rfl, rfl, rfl, rfl⟩

/-- C4 (amended): when the bounded read of a data-conversion call fails,
no file is written and no tracked object is created or fabricated for
that call - the handler raises instead of completing, the loop still
resumes the target (the try/finally), and the exception then escapes the
loop, so analysis does not continue for subsequent events. -/
theorem C4_read_failure (env : Env) (m : Mem) (st : HState) (lpolestream pstg : Nat)
    (h : readMem m (peek_pointer m (peek_pointer m (lpolestream + 8)))
           (peek_dword m (lpolestream + 12)) = none) :
    hook_data_conversion env m st lpolestream pstg = Except.error "ReadError"
    ∧ ∀ (maxTime : Nat) (s : LoopStep) (rest : List LoopStep),
        0 < s.debugees → s.now < maxTime →
        s.wait = WaitResult.ev m (HookEvent.dataConversion lpolestream pstg) →
        eventLoop env maxTime st (s :: rest) =
          (st, [Action.dispatchCall, Action.contCall], some "ReadError") := by
  have hh : hook_data_conversion env m st lpolestream pstg = Except.error "ReadError" := by
    unfold hook_data_conversion
    rw [h]
  refine ⟨hh, ?_⟩
  intro maxTime s rest hd hn hw
  unfold eventLoop
  rw [hw, if_pos (⟨hd, hn⟩ : 0 < s.debugees ∧ s.now < maxTime)]
  show (match dispatch env m st (HookEvent.dataConversion lpolestream pstg) with
        | .ok r1 =>
          ((eventLoop env maxTime r1.1 rest).1,
           Action.dispatchCall :: r1.2 ++ Action.contCall ::
             (eventLoop env maxTime r1.1 rest).2.1,
           (eventLoop env maxTime r1.1 rest).2.2)
        | .error msg => (st, [Action.dispatchCall, Action.contCall], some msg)) =
      (st, [Action.dispatchCall, Action.contCall], some "ReadError")
  have hdis : dispatch env m st (HookEvent.dataConversion lpolestream pstg) =
      Except.error "ReadError" := hh
  rw [hdis]

/-- Witness for C4 (amended): the unreadable-buffer memory memW4. -/
theorem C4_read_failure_witness :
    readMem memW4 (peek_pointer memW4 (peek_pointer memW4 (0 + 8)))
      (peek_dword memW4 (0 + 12)) = none
    ∧ hook_data_conversion envW memW4 initialState 0 7 = Except.error "ReadError" :=
  ⟨by decide, (C4_read_failure envW memW4 initialState 0 7 (by decide)).1⟩

/-- C5: the correlation slot holds at most one storage handle at every
point (it is a single optional value, of pending count at most one);
every object-load call overwrites it with its own storage-handle
argument, and a guid-conversion call that consumes a pending handle
resets it to empty. -/
theorem C5_pending_slot :
    (∀ (st : HState) (pstg : Nat), (hook_load st pstg).1.last_pstg = some pstg)
    ∧ (∀ (env : Env) (m : Mem) (st st2 : HState) (a : Nat) (acts : List Action),
        truthy st.last_pstg = true →
        hook_guid_conversion env m st a = Except.ok (st2, acts) → st2.last_pstg = none)
    ∧ (∀ st : HState, pendingCount st.last_pstg ≤ 1) := by
  refine ⟨fun st pstg => rfl, ?_, ?_⟩
  · intro env m st st2 a acts ht hok
    unfold hook_guid_conversion at hok
    split at hok
    · exact absurd hok (by simp)
    · rw [if_pos ht] at hok
      split at hok
      · exact absurd hok (by simp)
      · split at hok <;>
          · simp only [Except.ok.injEq, Prod.mk.injEq] at hok
            rw [← hok.1]
  · intro st
    cases st.last_pstg <;> simp [pendingCount]

/-- State after the unknown-identifier classification of stW5. -/
def stW5done : HState :=
  { last_pstg := none
    objects := [(5, { size := 42
                      sha256 := "d"
                      class_id := some "X"
                      description := some "Unknown (not blacklisted)" })] }

/-- The single warning record of the unknown branch. -/
def actsW5 : List Action := [Action.log .warning "Object found but not on blacklist %s" ["X"]]

/-- Witness for C5: a load call stores handle 7; a consuming
guid-conversion call on stW5 empties the slot. -/
theorem C5_pending_slot_witness :
    truthy stW5.last_pstg = true
    ∧ hook_guid_conversion envW memR stW5 0 = Except.ok (stW5done, actsW5)
    ∧ (hook_load initialState 7).1.last_pstg = some 7
    ∧ stW5done.last_pstg = none :=
  ⟨rfl, rfl, C5_pending_slot.1 initialState 7,
   C5_pending_slot.2.1 envW memR stW5 stW5done 0 actsW5 rfl rfl⟩

/-- State after the known-identifier classification of stW5 under envK. -/
def stKdone : HState :=
  { last_pstg := none
    objects := [(5, { size := 42
                      sha256 := "d"
                      class_id := some "CLSID-A"
                      description := some "Bad" })] }

/-- C6 counterexample: the claim asserts the known-identifier record is
logged at higher severity and the unknown one at lower severity; in the
source both branches call the same warning-level logger, so on these two
concrete runs every emitted record has level warning and neither severity
is higher than the other. -/
theorem C6_counterexample :
    hook_guid_conversion envK memR stW5 0 =
      Except.ok (stKdone,
        [Action.log .warning "Suspicious OLE object loaded, class id %s (%s)" ["CLSID-A", "Bad"],
         Action.log .warning "Object size is %d, SHA256 is %s" ["42", "d"]])
    ∧ hook_guid_conversion envW memR stW5 0 = Except.ok (stW5done, actsW5)
    ∧ ¬ LogLevel.rank .warning < LogLevel.rank .warning :=
  ⟨rfl, rfl, by decide⟩

/-- C6 (amended): for a consumed guid-conversion call, a known identifier
sets the description to exactly the table's mapped value and emits
warning-severity records carrying, between them, the identifier,
description, tracked byte length and content digest; an absent identifier
sets the generic not-on-list marker and emits a record at the same
warning severity. -/
theorem C6_classification (env : Env) (m : Mem) (st : HState) (a k : Nat)
    (bs : List Nat) (info : TrackedObject)
    (hk : st.last_pstg = some k) (hk0 : k ≠ 0)
    (hr : readMem m a 16 = some bs)
    (hl : lookupObj st.objects k = some info) :
    (∀ desc, lookupAssoc env.knownClsids (env.bytesToClsid bs) = some desc →
      hook_guid_conversion env m st a =
        Except.ok
          ({ last_pstg := none
             objects := (insertObj st.objects k
               { info with
                 class_id := some (env.bytesToClsid bs)
                 description := some desc }) },
           [Action.log .warning "Suspicious OLE object loaded, class id %s (%s)"
              [env.bytesToClsid bs, desc],
            Action.log .warning "Object size is %d, SHA256 is %s"
              [toString info.size, info.sha256]]))
    ∧ (lookupAssoc env.knownClsids (env.bytesToClsid bs) = none →
      hook_guid_conversion env m st a =
        Except.ok
          ({ last_pstg := none
             objects := (insertObj st.objects k
               { info with
                 class_id := some (env.bytesToClsid bs)
                 description := some "Unknown (not blacklisted)" }) },
           [Action.log .warning "Object found but not on blacklist %s"
              [env.bytesToClsid bs]])) := by
  have ht : truthy st.last_pstg = true := by rw [hk]; simp [truthy, hk0]
  have hkey : st.last_pstg.getD 0 = k := by rw [hk]; rfl
  constructor
  · intro desc hdesc
    unfold hook_guid_conversion
    simp only [hr, if_pos ht, hkey, hl, hdesc]
  · intro hnone
    unfold hook_guid_conversion
    simp only [hr, if_pos ht, hkey, hl, hnone]

/-- Witness for C6 (amended): the known case under envK. -/
theorem C6_classification_witness :
    stW5.last_pstg = some 5
    ∧ readMem memR 0 16 = some bsW
    ∧ lookupObj stW5.objects 5 = some objW
    ∧ lookupAssoc envK.knownClsids (envK.bytesToClsid bsW) = some "Bad"
    ∧ hook_guid_conversion envK memR stW5 0 =
        Except.ok (stKdone,
          [Action.log .warning "Suspicious OLE object loaded, class id %s (%s)" ["CLSID-A", "Bad"],
           Action.log .warning "Object size is %d, SHA256 is %s" ["42", "d"]]) :=
  ⟨rfl, by decide, rfl, rfl,
   (C6_classification envK memR stW5 0 5 bsW objW rfl (by decide) (by decide) rfl).1 "Bad" rfl⟩

/-- C7 counterexample: with handle 5 pending but no tracked object keyed
by it, the guid-conversion handler does not complete - indexing the
objects dict raises a KeyError - contradicting the claim that the
lookup/update branch is safe and the call completes without raising. -/
theorem C7_counterexample :
    hook_guid_conversion envW memR stE 0 = Except.error "KeyError" := rfl

/-- C7 (amended): the tracked-object update is not guarded: whenever a
handle is pending but no TrackedObject is keyed by it, the handler raises
a KeyError instead of completing. -/
theorem C7_missing_object (env : Env) (m : Mem) (st : HState) (a k : Nat) (bs : List Nat)
    (hk : st.last_pstg = some k) (hk0 : k ≠ 0)
    (hr : readMem m a 16 = some bs)
    (hl : lookupObj st.objects k = none) :
    hook_guid_conversion env m st a = Except.error "KeyError" := by
  have ht : truthy st.last_pstg = true := by rw [hk]; simp [truthy, hk0]
  have hkey : st.last_pstg.getD 0 = k := by rw [hk]; rfl
  unfold hook_guid_conversion
  simp only [hr, if_pos ht, hkey, hl]

/-- Witness for C7 (amended). -/
theorem C7_missing_object_witness :
    stE.last_pstg = some 5
    ∧ readMem memR 0 16 = some bsW
    ∧ lookupObj stE.objects 5 = none
    ∧ hook_guid_conversion envW memR stE 0 = Except.error "KeyError" :=
  ⟨rfl, by decide, rfl, C7_missing_object envW memR stE 0 5 bsW rfl (by decide) (by decide) rfl⟩

/-- C8 counterexample: a guid-conversion call in the idle state returns
with the state untouched and an empty action list - in particular no
diagnostic log record is emitted, contradicting the claim's "except that
a diagnostic log note is emitted". -/
theorem C8_counterexample :
    hook_guid_conversion envW memR initialState 0 = Except.ok (initialState, []) := rfl

/-- C8 (amended): a guid-conversion call observed while no handle is
pending (after the 16-byte identifier read succeeds) is a complete no-op:
the state, including the pending slot and the tracked objects, is
unchanged, and no action - not even a log record - is emitted. -/
theorem C8_idle_noop (env : Env) (m : Mem) (st : HState) (a : Nat) (bs : List Nat)
    (ht : truthy st.last_pstg = false) (hr : readMem m a 16 = some bs) :
    hook_guid_conversion env m st a = Except.ok (st, []) := by
  unfold hook_guid_conversion
  simp only [hr, ht, if_neg (by simp : ¬ (false = true))]

/-- Witness for C8 (amended). -/
theorem C8_idle_noop_witness :
    truthy initialState.last_pstg = false
    ∧ readMem memR 0 16 = some bsW
    ∧ hook_guid_conversion envW memR initialState 0 = Except.ok (initialState, []) :=
  ⟨rfl, by decide, C8_idle_noop envW memR initialState 0 bsW rfl (by decide)⟩

theorem ResumeDiscipline_append (xs ys : List Action)
    (hx : ResumeDiscipline xs) (hy : ResumeDiscipline ys) :
    ResumeDiscipline (xs ++ ys) := by
  induction hx with
  | nil => simpa using hy
  | skip a rest h _ ih => exact ResumeDiscipline.skip a _ h ih
  | seg acts rest h _ ih =>
    simp only [List.cons_append, List.append_assoc]
    exact ResumeDiscipline.seg acts (rest ++ ys) h ih

theorem eventLoop_resume (env : Env) (maxTime : Nat) :
    ∀ (steps : List LoopStep) (st : HState),
      ResumeDiscipline (eventLoop env maxTime st steps).2.1 := by
  intro steps
  induction steps with
  | nil =>
    intro st
    exact ResumeDiscipline.nil
  | cons s rest ih =>
    intro st
    unfold eventLoop
    split
    · split
      · exact ih st
      · exact ResumeDiscipline.nil
      · split
        next r1 heq =>
          exact ResumeDiscipline.seg r1.2 _
            (dispatch_nonControl _ _ _ _ r1.1 r1.2 heq) (ih r1.1)
        next msg heq =>
          exact ResumeDiscipline.seg [] [] (by simp) ResumeDiscipline.nil
    · exact ResumeDiscipline.nil

/-- C9: in every iteration of the event loop, after an event is
dispatched the target is resumed before the loop continues - every
dispatch call in the trace is followed by a resume with only handler
actions in between, and this holds also when dispatch raises (the
try/finally), both for the bare loop and for the full office_debugger
trace. -/
theorem C9_resume_unconditional (env : Env) (maxTime : Nat) (st : HState)
    (steps : List LoopStep) :
    ResumeDiscipline (eventLoop env maxTime st steps).2.1
    ∧ ∀ (timeout : Nat) (save_objs : Bool) (startTime : Nat),
        ResumeDiscipline (office_debugger env timeout save_objs startTime steps).trace := by
  refine ⟨eventLoop_resume env maxTime steps st, ?_⟩
  intro timeout save_objs startTime
  unfold office_debugger
  exact ResumeDiscipline_append _ _ (eventLoop_resume env _ steps initialState)
    (ResumeDiscipline.skip _ _ (by simp) ResumeDiscipline.nil)

theorem eventLoop_timeouts (env : Env) (maxTime : Nat) :
    ∀ steps : List LoopStep, (∀ s ∈ steps, s.wait = WaitResult.winTimeout) →
      ∀ st : HState, eventLoop env maxTime st steps = (st, [], none) := by
  intro steps
  induction steps with
  | nil =>
    intro _ st
    rfl
  | cons s rest ih =>
    intro h st
    have hs : s.wait = WaitResult.winTimeout := h s (List.mem_cons_self _ _)
    unfold eventLoop
    rw [hs]
    by_cases hc : 0 < s.debugees ∧ s.now < maxTime
    · rw [if_pos hc]
      exact ih (fun q hq => h q (List.mem_cons_of_mem _ hq)) st
    · rw [if_neg hc]

/-- C10: when every wait reports a timeout, the loop absorbs them all and
exits without any error state: the handler state accumulated so far is
returned unchanged as the partial result, no exception escapes, and the
run's trace ends with the stop call that terminates the target. -/
theorem C10_timeout_termination (env : Env) (steps : List LoopStep)
    (h : ∀ s ∈ steps, s.wait = WaitResult.winTimeout) :
    (∀ (maxTime : Nat) (st : HState), eventLoop env maxTime st steps = (st, [], none))
    ∧ ∀ (timeout : Nat) (save_objs : Bool) (startTime : Nat),
        office_debugger env timeout save_objs startTime steps =
          { finalState := initialState
            trace := [Action.stopCall]
            error := none } := by
  refine ⟨fun maxTime st => eventLoop_timeouts env maxTime steps h st, ?_⟩
  intro timeout save_objs startTime
  unfold office_debugger
  rw [eventLoop_timeouts env (startTime + timeout) steps h initialState]
  rfl

/-- Schedule of two timeout-only waits. -/
def stepsW10 : List LoopStep :=
  [{ debugees := 1, now := 0, wait := WaitResult.winTimeout },
   { debugees := 1, now := 3, wait := WaitResult.winTimeout }]

/-- Witness for C10. -/
theorem C10_timeout_termination_witness :
    (∀ s ∈ stepsW10, s.wait = WaitResult.winTimeout)
    ∧ office_debugger envW 10 true 0 stepsW10 =
        { finalState := initialState
          trace := [Action.stopCall]
          error := none } :=
  ⟨fun s hs => by
     simp only [stepsW10, List.mem_cons, List.not_mem_nil, or_false] at hs
     rcases hs with rfl | rfl <;> rfl,
   (C10_timeout_termination envW stepsW10 (fun s hs => by
     simp only [stepsW10, List.mem_cons, List.not_mem_nil, or_false] at hs
     rcases hs with rfl | rfl <;> rfl)).2 10 true 0⟩

end Rtfraptor
